import Mathlib

/-! The middleware chain of `main.go` in sample-golang-newrelic.

A shallow embedding of `src/main.go`.  A Go handler mutates the response writer it is
given and the process-wide collaborators (clock, standard logger, raven client, gorelic
timer); here all of that is one explicit `World` value passed through every call.  A call
either returns or panics, and in both cases leaves a `World` behind (`Outcome`).

Library calls (`net/http`, `time`, `log`, `raven`, `go-metrics`) are modelled by the
effect they have on the `World`; each of them also appends itself to `World.calls`, the
record of collaborator calls in program order.

Model boundaries:
* one request is followed from entry to return; interleavings of concurrent requests on
  the shared collaborators are outside the model;
* times and durations are integers (nanoseconds); the saturation of `time.Time.Sub`
  at about 292 years is outside the model; the clock moves only where a handler lets
  time pass, the statements of the middleware themselves take none;
* a panic value is a non-nil Go value (`recover()` yields nil exactly when no panic is
  in flight; Go 1.21 and later turn `panic(nil)` into a non-nil runtime error);
* the library calls of the middleware and of startup (`raven.*`, `debug.PrintStack`,
  `http.Error`, `log.Printf`, `time.Now`, `gorelic.NewAgent`, `metrics.NewTimer`,
  `agent.Run`, `bone.*`) are taken to return normally;
* package `xhandler` is not part of the repository: its chain is modelled from the
  specification; its `CloseHandler` and `TimeoutHandler` are inputs of `main`, and
  `specXHandler` supplies them as the specification describes them.  A downstream call
  that passes the deadline goes on in the background: what it does is then no part of
  the world the request is followed in.
-/

namespace SampleGolangNewrelic

/-! ## Data model -/

/-- Wall-clock instants, in nanoseconds. -/
abbrev Time := Int

/-- Elapsed time (`time.Duration`), in nanoseconds. -/
abbrev Duration := Int

/-- A Go interface value as far as the program looks at it: something that can be raised
by `panic` and rendered by `fmt.Sprint`. -/
inductive Value where
  /-- An `error` built by `errors.New`. -/
  | error (text : String)
  /-- A string. -/
  | string (s : String)
  /-- Any other non-nil value, given by the text `fmt.Sprint` renders it to. -/
  | other (rendered : String)
  deriving DecidableEq, Repr

/-- The part of `*http.Request` the program reads. -/
structure Request where
  Method : String
  /-- The request URL in string form, `r.URL.String()`. -/
  URL : String
  Header : List (String × String)
  deriving DecidableEq, Repr

/-- The state behind an `http.ResponseWriter`. -/
structure ResponseWriter where
  /-- The header map, `w.Header()`. -/
  header : List (String × String)
  /-- Whether the status line and headers have been sent. -/
  wroteHeader : Bool
  /-- The status code sent (meaningful once `wroteHeader`). -/
  status : Nat
  /-- The headers as they were sent with the status line. -/
  sentHeader : List (String × String)
  /-- The body bytes written so far. -/
  body : String
  deriving DecidableEq, Repr

/-- What the client receives. -/
structure Response where
  status : Nat
  header : List (String × String)
  body : String
  deriving DecidableEq, Repr

/-- The request metadata raven attaches to a report (`raven.Http`). -/
structure Http where
  Method : String
  URL : String
  Headers : List (String × String)
  deriving DecidableEq, Repr

/-- The result of `raven.NewStacktrace(skip, context, appPackagePrefixes)`; the frames
themselves are not modelled. -/
structure Stacktrace where
  skip : Nat
  context : Nat
  deriving DecidableEq, Repr

/-- The exception interface of a raven packet (`raven.Exception`). -/
structure Exception where
  Value : String
  Stacktrace : Stacktrace
  deriving DecidableEq, Repr

/-- A raven report (`raven.Packet`). -/
structure Packet where
  Message : String
  Exception : Exception
  Http : Http
  deriving DecidableEq, Repr

/-- An argument of `log.Printf`. -/
inductive LogArg where
  | str (s : String)
  | duration (d : Duration)
  deriving DecidableEq, Repr

/-- What reaches standard error. -/
inductive Output where
  /-- A `log.Printf` line, kept as its format and arguments. -/
  | logged (format : String) (args : List LogArg)
  /-- The stack dump of `debug.PrintStack`. -/
  | stack
  deriving DecidableEq, Repr

/-- A call on a collaborator, as recorded in `World.calls`. -/
inductive Call where
  | timeNow (t : Time)
  | ravenSetHttpContext (h : Http)
  | debugPrintStack
  | ravenCapture (p : Packet)
  | httpError (error : String) (code : Nat)
  | write (data : String)
  | logPrintf (format : String) (args : List LogArg)
  | timerUpdateSince (timer : Nat) (ts : Time)
  deriving DecidableEq, Repr

/-- Everything a handler can read or change while serving one request. -/
structure World where
  /-- The response writer of the request being served. -/
  w : ResponseWriter
  /-- The wall clock. -/
  now : Time
  /-- The HTTP context of raven's default client. -/
  ravenHttp : Option Http
  /-- The packets submitted to raven's default client. -/
  captured : List Packet
  /-- Standard error: log lines and stack dumps. -/
  stderr : List Output
  /-- The samples of every go-metrics timer, by timer id. -/
  timers : Nat → List Duration
  /-- The calls made on collaborators, in program order. -/
  calls : List Call

/-- How a call ends: it returns, or it panics with a value. -/
inductive Outcome where
  | returned (s : World)
  | panicked (v : Value) (s : World)

/-- The world a call leaves behind. -/
def Outcome.world : Outcome → World
  | .returned s => s
  | .panicked _ s => s

/-- The panic value, if the call panicked. -/
def Outcome.panicValue : Outcome → Option Value
  | .returned _ => none
  | .panicked v _ => some v

/-- An `http.Handler`: `ServeHTTP(w, r)` with `w` inside the world. -/
abbrev Handler := Request → World → Outcome

/-! ## Library calls -/

/-- Go's `fmt.Sprint` of one value: an error renders as its `Error()` text, a string as
itself. -/
def fmt.Sprint : Value → String
  | .error text => text
  | .string s => s
  | .other rendered => rendered

/-- Go's `errors.New`. -/
def errors.New (text : String) : Value := .error text

def http.StatusOK : Nat := 200
def http.StatusInternalServerError : Nat := 500
def http.StatusServiceUnavailable : Nat := 503

/-- Go's `http.StatusText`, for the codes the program and its chain meet; the text of
other codes is not modelled. -/
def http.StatusText (code : Nat) : String :=
  if code = 200 then "OK"
  else if code = 500 then "Internal Server Error"
  else if code = 503 then "Service Unavailable"
  else ""

/-- `w.Header().Set(key, value)`. -/
def ResponseWriter.headerSet (key value : String) (w : ResponseWriter) : ResponseWriter :=
  { w with header := (w.header.filter (fun kv => kv.1 != key)) ++ [(key, value)] }

/-- `w.WriteHeader(code)`: sends the status line and the current header map; a second
call is ignored by `net/http`. -/
def ResponseWriter.WriteHeader (code : Nat) (w : ResponseWriter) : ResponseWriter :=
  if w.wroteHeader then w
  else { w with wroteHeader := true, status := code, sentHeader := w.header }

/-- `w.Write(data)`: the first write sends an implicit `WriteHeader(http.StatusOK)`. -/
def ResponseWriter.Write (data : String) (w : ResponseWriter) : ResponseWriter :=
  let w1 := if w.wroteHeader then w else w.WriteHeader http.StatusOK
  { w1 with body := w1.body ++ data }

/-- What the server sends once the handler has returned: a handler that never wrote
gets an implicit 200 with the header map as it stands. -/
def ResponseWriter.clientResponse (w : ResponseWriter) : Response :=
  if w.wroteHeader then { status := w.status, header := w.sentHeader, body := w.body }
  else { status := http.StatusOK, header := w.header, body := w.body }

/-- `fmt.Fprintf(w, format)` with a format that has no verbs: writes it to `w`. -/
def fmt.Fprintf (format : String) (s : World) : World :=
  { s with w := s.w.Write format, calls := s.calls ++ [.write format] }

/-- Go's `http.Error(w, error, code)`: sets the two plain-text headers, writes the status
code, then writes the message followed by a newline. -/
def http.Error (error : String) (code : Nat) (s : World) : World :=
  let w1 := s.w.headerSet "Content-Type" "text/plain; charset=utf-8"
  let w2 := w1.headerSet "X-Content-Type-Options" "nosniff"
  let w3 := w2.WriteHeader code
  let w4 := w3.Write (error ++ "\n")
  { s with w := w4, calls := s.calls ++ [.httpError error code] }

/-- `time.Now()`: reads the clock. -/
def time.Now (s : World) : Time × World :=
  (s.now, { s with calls := s.calls ++ [.timeNow s.now] })

/-- `t2.Sub(t1)`. -/
def Time.Sub (t2 t1 : Time) : Duration := t2 - t1

/-- `log.Printf(format, args...)`: one line on standard error. -/
def log.Printf (format : String) (args : List LogArg) (s : World) : World :=
  { s with stderr := s.stderr ++ [.logged format args],
           calls := s.calls ++ [.logPrintf format args] }

/-- `debug.PrintStack()`: dumps the stack on standard error. -/
def debug.PrintStack (s : World) : World :=
  { s with stderr := s.stderr ++ [.stack], calls := s.calls ++ [.debugPrintStack] }

/-- `raven.NewHttp(r)`: the request metadata of a report. -/
def raven.NewHttp (r : Request) : Http :=
  { Method := r.Method, URL := r.URL, Headers := r.Header }

/-- `raven.NewStacktrace(skip, context, nil)`. -/
def raven.NewStacktrace (skip context : Nat) : Stacktrace :=
  { skip := skip, context := context }

/-- `raven.NewException(err, stacktrace)`. -/
def raven.NewException (err : Value) (stacktrace : Stacktrace) : Exception :=
  { Value := fmt.Sprint err, Stacktrace := stacktrace }

/-- `raven.NewPacket(message, exception, http)`. -/
def raven.NewPacket (message : String) (exception : Exception) (http : Http) : Packet :=
  { Message := message, Exception := exception, Http := http }

/-- `raven.SetHttpContext(h)`: stores `h` in the default client. -/
def raven.SetHttpContext (h : Http) (s : World) : World :=
  { s with ravenHttp := some h, calls := s.calls ++ [.ravenSetHttpContext h] }

/-- `raven.Capture(packet, nil)`: submits the packet to the default client. -/
def raven.Capture (packet : Packet) (s : World) : World :=
  { s with captured := s.captured ++ [packet], calls := s.calls ++ [.ravenCapture packet] }

/-- `timer.UpdateSince(ts)` of go-metrics: records `time.Since(ts)` as one sample. -/
def metrics.Timer.UpdateSince (timer : Nat) (ts : Time) (s : World) : World :=
  { s with timers := Function.update s.timers timer (s.timers timer ++ [Time.Sub s.now ts]),
           calls := s.calls ++ [.timerUpdateSince timer ts] }

/-- Go's `strings.HasPrefix` on character lists. -/
def hasPrefixChars : List Char → List Char → Bool
  | _, [] => true
  | [], _ :: _ => false
  | a :: as, b :: bs => a == b && hasPrefixChars as bs

/-- Go's `strings.Contains` on character lists. -/
def containsChars : List Char → List Char → Bool
  | [], sub => sub.isEmpty
  | a :: as, sub => hasPrefixChars (a :: as) sub || containsChars as sub

/-- Go's `strings.Contains(s, substr)`. -/
def strings.Contains (s substr : String) : Bool :=
  containsChars s.toList substr.toList

/-! ## The agent (`gorelic.Agent`) -/

/-- The fields of `gorelic.Agent` that `NewGorelic` sets. -/
structure Agent where
  NewrelicLicense : String
  /-- The id of the agent's `metrics.Timer`, if one has been installed. -/
  HTTPTimer : Option Nat
  CollectHTTPStat : Bool
  Verbose : Bool
  NewrelicName : String
  deriving DecidableEq, Repr

/-! ## Middleware and handlers of `main.go` -/

/-- The closure `mid` of `createNewrelicMiddleware`, for the agent it captured (main.go
lines 41-48).  `agent.HTTPTimer.UpdateSince` on an agent without a timer is a nil
dereference. -/
def newrelicMid (agent : Agent) (next : Handler) : Handler := fun r s =>
  let (startTime, s1) := time.Now s
  match next r s1 with
  | .panicked v s2 => .panicked v s2
  | .returned s2 =>
    match agent.HTTPTimer with
    | some timer => .returned (metrics.Timer.UpdateSince timer startTime s2)
    | none => .panicked (.other "runtime error: invalid memory address or nil pointer dereference") s2

/-- `sentryMiddleware` (main.go lines 52-73).  The deferred function runs on both exits of
`next.ServeHTTP`; `recover()` is non-nil exactly on the panicking one. -/
def sentryMiddleware (next : Handler) : Handler := fun r s =>
  let s1 := raven.SetHttpContext (raven.NewHttp r) s
  match next r s1 with
  | .returned s2 => .returned s2
  | .panicked err s2 =>
    let s3 := debug.PrintStack s2
    let errStr := fmt.Sprint err
    let packet := raven.NewPacket errStr
      (raven.NewException (errors.New errStr) (raven.NewStacktrace 2 3))
      (raven.NewHttp r)
    let s4 := raven.Capture packet s3
    let s5 := http.Error (http.StatusText http.StatusInternalServerError)
      http.StatusInternalServerError s4
    .returned s5

/-- `loggingMiddleware` (main.go lines 75-83). -/
def loggingMiddleware (next : Handler) : Handler := fun r s =>
  let (t1, s1) := time.Now s
  match next r s1 with
  | .panicked v s2 => .panicked v s2
  | .returned s2 =>
    let (t2, s3) := time.Now s2
    .returned (log.Printf "[%s] %q %v\n" [.str r.Method, .str r.URL, .duration (Time.Sub t2 t1)] s3)

/-- `normalHandler` (main.go lines 85-87). -/
def normalHandler : Handler := fun _ s =>
  .returned (fmt.Fprintf "normal" s)

/-- `panicHandler` (main.go lines 93-97): the write after `panic` is never reached. -/
def panicHandler : Handler := fun _ s =>
  let err := errors.New "error for sentry: from panicHandler"
  .panicked err s

/-- A context-carrying handler (`xhandler.HandlerC`): `ServeHTTPC(ctx, w, r)`, over
contexts of type `Ctx`. -/
abbrev HandlerC (Ctx : Type) := Ctx → Handler

/-- `contextNormalHandler` (main.go lines 89-91). -/
def contextNormalHandler {Ctx : Type} : HandlerC Ctx := fun _ _ s =>
  .returned (fmt.Fprintf "normal with context" s)

/-- `contextPanicHandler` (main.go lines 99-103). -/
def contextPanicHandler {Ctx : Type} : HandlerC Ctx := fun _ _ s =>
  let err := errors.New "error for sentry: from contextPanicHandler"
  .panicked err s

/-! ## Startup: the process state and `NewGorelic` -/

/-- A route of the `bone` mux. -/
structure Route where
  Method : String
  Pattern : String
  handler : Handler

/-- The state of the process while `main` starts up. -/
structure Process where
  /-- The environment variables. -/
  env : String → Option String
  /-- Standard error. -/
  stderr : List Output
  /-- How many agents `gorelic.NewAgent` has created. -/
  agentsCreated : Nat
  /-- How many timers `metrics.NewTimer` has created; the next timer gets this id. -/
  timersCreated : Nat
  /-- The agents started by `agent.Run()`. -/
  running : List Agent
  /-- The routes of the mux, once `bone.New()` has created it. -/
  mux : Option (List Route)
  /-- For each address, the error that listening on it fails with, if it does. -/
  bindError : String → Option String
  /-- The address the server listens on, once it does. -/
  listening : Option String

/-- How a startup call ends: with a result, or with a panic. -/
inductive Startup (α : Type) where
  | ok (a : α) (p : Process)
  | panicked (v : Value) (p : Process)

/-- How `main` ends. -/
inductive Exit where
  /-- An uncaught panic: the runtime prints it and the process dies. -/
  | panicked (v : Value) (p : Process)
  /-- The end through `log.Fatal`: the error is logged and the process exits with 1. -/
  | fatal (p : Process)
  /-- No end: `main` stays inside `http.ListenAndServe`, which serves. -/
  | serving (p : Process)

/-- The process state `main` ends with. -/
def Exit.process : Exit → Process
  | .panicked _ p => p
  | .fatal p => p
  | .serving p => p

/-- Go's `os.Getenv(key)`: the empty string when the variable is not set. -/
def os.Getenv (key : String) (p : Process) : String :=
  (p.env key).getD ""

/-- Go's `log.Printf` while starting up. -/
def startup.log.Printf (format : String) (args : List LogArg) (p : Process) : Process :=
  { p with stderr := p.stderr ++ [.logged format args] }

/-- Go's `log.Fatal(err)`: logs the error; the caller then ends with exit status 1. -/
def startup.log.Fatal (err : String) (p : Process) : Process :=
  { p with stderr := p.stderr ++ [.logged "%v" [.str err]] }

/-- `gorelic.NewAgent()`: a new agent; each of the fields modelled here is overwritten
by `NewGorelic`. -/
def gorelic.NewAgent (p : Process) : Agent × Process :=
  ({ NewrelicLicense := "", HTTPTimer := none, CollectHTTPStat := false, Verbose := false,
     NewrelicName := "" },
   { p with agentsCreated := p.agentsCreated + 1 })

/-- `metrics.NewTimer()`: a new timer without samples, named by its id. -/
def metrics.NewTimer (p : Process) : Nat × Process :=
  (p.timersCreated, { p with timersCreated := p.timersCreated + 1 })

/-- `agent.Run()`: starts the agent; the error it may return is dropped by the caller. -/
def gorelic.Agent.Run (agent : Agent) (p : Process) : Process :=
  { p with running := p.running ++ [agent] }

/-- `NewGorelic` (main.go lines 20-35). -/
def NewGorelic (license : String) (appname : String) (verbose : Bool) (p : Process) :
    Startup Agent :=
  if license = "" then
    .panicked (.string "Please specify NewRelic license") p
  else
    let (agent0, p1) := gorelic.NewAgent p
    let agent1 := { agent0 with NewrelicLicense := license }
    let (timer, p2) := metrics.NewTimer p1
    let agent2 := { agent1 with HTTPTimer := some timer }
    let agent3 := { agent2 with CollectHTTPStat := true }
    let agent4 := { agent3 with Verbose := verbose }
    let agent5 := { agent4 with NewrelicName := appname }
    let p3 := gorelic.Agent.Run agent5 p2
    .ok agent5 p3

/-- `createNewrelicMiddleware` (main.go lines 37-50). -/
def createNewrelicMiddleware (p : Process) : Startup (Handler → Handler) :=
  let newrelicLicense := os.Getenv "NEWRELIC_LICENSE_KEY" p
  let p1 := startup.log.Printf "%s" [.str newrelicLicense] p
  match NewGorelic newrelicLicense "Golang Test" true p1 with
  | .panicked v p2 => .panicked v p2
  | .ok agent p2 => .ok (newrelicMid agent) p2

/-! ## The chain of package `xhandler` and `main` -/

/-- The two context middleware of package `xhandler` that `main` registers, and the
background context.  Their code is not part of the repository: they are inputs. -/
structure XHandler (Ctx : Type) where
  /-- `context.Background()`. -/
  Background : Ctx
  /-- `xhandler.CloseHandler`. -/
  CloseHandler : HandlerC Ctx → HandlerC Ctx
  /-- `xhandler.TimeoutHandler(timeout)`. -/
  TimeoutHandler : Duration → HandlerC Ctx → HandlerC Ctx

/-- Modelled from the spec: `xhandler.Chain`, whose code is not part of the repository.
The ordered list of registered middleware, each in its context-carrying shape. -/
abbrev Chain (Ctx : Type) := List (HandlerC Ctx → HandlerC Ctx)

/-- Modelled from the spec: `Chain.Use` of package `xhandler`, whose code is not part of
the repository; it appends a context-less middleware to the ordered list.  The
middleware wraps the rest of the chain under the context it is entered with. -/
def Chain.Use {Ctx : Type} (c : Chain Ctx) (f : Handler → Handler) : Chain Ctx :=
  c ++ [fun next ctx => f (next ctx)]

/-- Modelled from the spec: `Chain.UseC` of package `xhandler`, whose code is not part
of the repository; it appends a context-carrying middleware to the same list. -/
def Chain.UseC {Ctx : Type} (c : Chain Ctx) (f : HandlerC Ctx → HandlerC Ctx) : Chain Ctx :=
  c ++ [f]

/-- Modelled from the spec: `Chain.HandlerC` of package `xhandler`, whose code is not
part of the repository; the build step `mw[0](mw[1](...mw[n-1](terminal)))`. -/
def Chain.HandlerC {Ctx : Type} (c : Chain Ctx) (xh : HandlerC Ctx) : HandlerC Ctx :=
  c.foldr (fun mw acc => mw acc) xh

/-- Modelled from the spec: `Chain.HandlerFC` of package `xhandler`, whose code is not
part of the repository; the chain built around a context-carrying terminal handler and
entered with the background context. -/
def Chain.HandlerFC {Ctx : Type} (c : Chain Ctx) (background : Ctx) (xhf : Ctx → Handler) :
    Handler :=
  c.HandlerC xhf background

/-- Modelled from the spec: `Chain.HandlerF` of package `xhandler`, whose code is not
part of the repository; the chain built around a context-less terminal handler. -/
def Chain.HandlerF {Ctx : Type} (c : Chain Ctx) (background : Ctx) (hf : Handler) : Handler :=
  c.HandlerC (fun _ => hf) background

/-- Go's `time.Second`, in nanoseconds. -/
def time.Second : Duration := 1000000000

/-- `bone.New()`: a mux without routes. -/
def bone.New (p : Process) : Process :=
  { p with mux := some [] }

/-- `mux.Get(pattern, handler)`: registers the handler for `GET pattern`. -/
def bone.Mux.Get (pattern : String) (handler : Handler) (p : Process) : Process :=
  { p with mux := some ((p.mux.getD []) ++
      [{ Method := "GET", Pattern := pattern, handler := handler }]) }

/-- How `http.ListenAndServe` goes on: it fails to listen and returns the error, or it
listens and serves without returning. -/
inductive ListenResult where
  | failed (err : String) (p : Process)
  | serves (p : Process)

/-- Go's `http.ListenAndServe(addr, mux)`. -/
def http.ListenAndServe (addr : String) (p : Process) : ListenResult :=
  match p.bindError addr with
  | some err => .failed err p
  | none => .serves { p with listening := some addr }

/-- `main` (main.go lines 105-123), given package `xhandler`. -/
def main {Ctx : Type} (x : XHandler Ctx) (p : Process) : Exit :=
  match createNewrelicMiddleware p with
  | .panicked v p1 => .panicked v p1
  | .ok newrelicMiddleware p1 =>
    let c0 : Chain Ctx := []
    let c1 := c0.Use sentryMiddleware
    let c2 := c1.Use newrelicMiddleware
    let c3 := c2.Use loggingMiddleware
    let c4 := c3.UseC x.CloseHandler
    let c := c4.UseC (x.TimeoutHandler (2 * time.Second))
    let p2 := bone.New p1
    let p3 := bone.Mux.Get "/normal" (c.HandlerF x.Background normalHandler) p2
    let p4 := bone.Mux.Get "/panic" (c.HandlerF x.Background panicHandler) p3
    let p5 := bone.Mux.Get "/context/normal" (c.HandlerFC x.Background contextNormalHandler) p4
    let p6 := bone.Mux.Get "/context/panic" (c.HandlerFC x.Background contextPanicHandler) p5
    match http.ListenAndServe ":8080" p6 with
    | .failed err p7 => .fatal (startup.log.Fatal err p7)
    | .serves p7 => .serving p7

/-! ## Inputs used to run the code -/

/-- The response writer the server hands to a handler: nothing written yet. -/
def ResponseWriter.fresh : ResponseWriter :=
  { header := [], wroteHeader := false, status := 0, sentHeader := [], body := "" }

/-- The world at the start of a request arriving at time `now`, with idle collaborators. -/
def World.fresh (now : Time) : World :=
  { w := ResponseWriter.fresh, now := now, ravenHttp := none, captured := [], stderr := [],
    timers := fun _ => [], calls := [] }

/-- The request `GET /normal`. -/
def getNormal : Request := { Method := "GET", URL := "/normal", Header := [] }

/-- The request `GET /panic`. -/
def getPanic : Request := { Method := "GET", URL := "/panic", Header := [] }

/-- Go's `time.Sleep(d)`: the clock moves on by `d`. -/
def time.Sleep (d : Duration) (s : World) : World :=
  { s with now := s.now + d }

/-- A handler that sleeps for `d` and then answers like `normalHandler`. -/
def sleepingHandler (d : Duration) : Handler := fun _ s =>
  .returned (fmt.Fprintf "normal" (time.Sleep d s))

/-- A handler that sends its error text to the client and then panics with that error:
`err := errors.New(...); fmt.Fprintf(w, err.Error()); panic(err)`. -/
def leakingPanicHandler : Handler := fun _ s =>
  let err := errors.New "error for sentry: from panicHandler"
  .panicked err (fmt.Fprintf (fmt.Sprint err) s)

/-- The response the client receives when `h` serves `r` from the world `s`. -/
def clientReceives (h : Handler) (r : Request) (s : World) : Response :=
  (h r s).world.w.clientResponse

/-- The packet `sentryMiddleware` builds for the panic value `err` raised while serving
`r` (main.go lines 58-62). -/
def sentryPacket (err : Value) (r : Request) : Packet :=
  raven.NewPacket (fmt.Sprint err)
    (raven.NewException (errors.New (fmt.Sprint err)) (raven.NewStacktrace 2 3))
    (raven.NewHttp r)

/-- The agent `NewGorelic` returns for a non-empty license, with the timer it created. -/
def startedAgent (license appname : String) (verbose : Bool) (timer : Nat) : Agent :=
  { NewrelicLicense := license, HTTPTimer := some timer, CollectHTTPStat := true,
    Verbose := verbose, NewrelicName := appname }

/-- The world in which `sentryMiddleware` invokes its downstream handler. -/
def sentryEntry (r : Request) (s : World) : World :=
  raven.SetHttpContext (raven.NewHttp r) s

/-- The chain as the claim spells it out, around a context-carrying terminal handler:
`sentryMiddleware(newrelicMiddleware(loggingMiddleware(CloseHandler(TimeoutHandler(2s)(h)))))`. -/
def composed {Ctx : Type} (x : XHandler Ctx) (newrelicMiddleware : Handler → Handler)
    (h : HandlerC Ctx) : Handler :=
  sentryMiddleware (newrelicMiddleware (loggingMiddleware
    (x.CloseHandler (x.TimeoutHandler (2 * time.Second) h) x.Background)))

/-- An `xhandler` whose two context middleware add nothing observable to the request. -/
def plainXHandler : XHandler Unit :=
  { Background := (), CloseHandler := fun next => next, TimeoutHandler := fun _ next => next }

/-- A process about to start with the given environment, every address free. -/
def Process.fresh (env : String → Option String) : Process :=
  { env := env, stderr := [], agentsCreated := 0, timersCreated := 0, running := [],
    mux := none, bindError := fun _ => none, listening := none }

/-- An environment that sets `NEWRELIC_LICENSE_KEY` and nothing else. -/
def licenseOnlyEnv (license : String) : String → Option String :=
  fun key => if key = "NEWRELIC_LICENSE_KEY" then some license else none

/-- An environment that sets the crash reporter's `SENTRY_DSN` and nothing else. -/
def sentryOnlyEnv (dsn : String) : String → Option String :=
  fun key => if key = "SENTRY_DSN" then some dsn else none

/-- Whether `main` ended up serving. -/
def Exit.isServing : Exit → Bool
  | .serving _ => true
  | _ => false

/-- The patterns of the routes registered on the mux. -/
def Process.patterns (p : Process) : List String :=
  (p.mux.getD []).map (fun route => route.Pattern)

/-- The process state `main` reaches once its chain is built and its four routes are
registered, before it starts listening. -/
def registered {Ctx : Type} (x : XHandler Ctx) (p : Process) : Process :=
  { p with
    stderr := p.stderr ++ [.logged "%s" [.str (os.Getenv "NEWRELIC_LICENSE_KEY" p)]],
    agentsCreated := p.agentsCreated + 1,
    timersCreated := p.timersCreated + 1,
    running := p.running ++ [startedAgent (os.Getenv "NEWRELIC_LICENSE_KEY" p)
      "Golang Test" true p.timersCreated],
    mux := some
      [ { Method := "GET", Pattern := "/normal",
          handler := composed x (newrelicMid (startedAgent (os.Getenv "NEWRELIC_LICENSE_KEY" p)
            "Golang Test" true p.timersCreated)) (fun _ => normalHandler) },
        { Method := "GET", Pattern := "/panic",
          handler := composed x (newrelicMid (startedAgent (os.Getenv "NEWRELIC_LICENSE_KEY" p)
            "Golang Test" true p.timersCreated)) (fun _ => panicHandler) },
        { Method := "GET", Pattern := "/context/normal",
          handler := composed x (newrelicMid (startedAgent (os.Getenv "NEWRELIC_LICENSE_KEY" p)
            "Golang Test" true p.timersCreated)) contextNormalHandler },
        { Method := "GET", Pattern := "/context/panic",
          handler := composed x (newrelicMid (startedAgent (os.Getenv "NEWRELIC_LICENSE_KEY" p)
            "Golang Test" true p.timersCreated)) contextPanicHandler } ] }

/-- The world in which the chain of `main` invokes what lies inside `loggingMiddleware`:
after the panic-capture entry, the timer's clock read and the logger's clock read. -/
def chainEntry (r : Request) (s : World) : World :=
  (time.Now (time.Now (sentryEntry r s)).2).2

/-- The terminal handler wrapped in the inner middleware, the first of the list
outermost. -/
def wrapped (inner : List (Handler → Handler)) (terminal : Handler) : Handler :=
  inner.foldr (fun mw acc => mw acc) terminal

/-- Modelled from the spec: the context of package `context`, whose code is not part of
the repository; an immutable carrier of a deadline and of a cancellation source. -/
structure Context where
  /-- The deadline, if one has been set. -/
  deadline : Option Time
  /-- Whether cancellation is tied to the client connection closing. -/
  closeNotify : Bool
  deriving DecidableEq, Repr

/-- Modelled from the spec: `context.Background()`, whose code is not part of the
repository; the context without deadline or cancellation. -/
def context.Background : Context :=
  { deadline := none, closeNotify := false }

/-- Modelled from the spec: `xhandler.CloseHandler`, whose code is not part of the
repository.  It derives a context whose cancellation fires when the peer closes the
connection and runs downstream under it; the request followed here keeps its
connection open. -/
def xhandler.CloseHandler (next : HandlerC Context) : HandlerC Context := fun ctx r s =>
  next { ctx with closeNotify := true } r s

/-- Modelled from the spec: `xhandler.TimeoutHandler`, whose code is not part of the
repository.  It derives a context with the deadline `timeout` after entry and runs
downstream.  Downstream done before the deadline: its outcome is forwarded.  Otherwise
the deadline comes first: at the deadline the timeout response (503, "Service
Unavailable") is sent on the response as it stood at entry, and whatever downstream
does afterwards is discarded. -/
def xhandler.TimeoutHandler (timeout : Duration) (next : HandlerC Context) :
    HandlerC Context := fun ctx r s =>
  let deadline := s.now + timeout
  let out := next { ctx with deadline := some deadline } r s
  if out.world.now < deadline then out
  else .returned
    (http.Error (http.StatusText http.StatusServiceUnavailable)
      http.StatusServiceUnavailable { s with now := deadline })

/-- Package `xhandler` as the specification describes it. -/
def specXHandler : XHandler Context :=
  { Background := context.Background,
    CloseHandler := xhandler.CloseHandler,
    TimeoutHandler := xhandler.TimeoutHandler }

/-- The context under which the chain of `main`, built on `specXHandler`, invokes a
terminal handler for a request entering in the world `s`. -/
def chainContext (s : World) : Context :=
  { deadline := some (s.now + 2 * time.Second), closeNotify := true }

/-! ## Facts shared by the proofs -/

theorem http_Error_fresh (error : String) (code : Nat) (s : World)
    (hw : s.w.wroteHeader = false) :
    (http.Error error code s).w.clientResponse.status = code ∧
    (http.Error error code s).w.clientResponse.body = s.w.body ++ (error ++ "\n") := by
  simp [http.Error, ResponseWriter.Write, ResponseWriter.WriteHeader,
    ResponseWriter.headerSet, ResponseWriter.clientResponse, hw]

theorem sentryMiddleware_of_panicked (next : Handler) (r : Request) (s : World)
    (v : Value) (s2 : World) (hpanic : next r (sentryEntry r s) = .panicked v s2) :
    sentryMiddleware next r s = .returned
      (http.Error (http.StatusText http.StatusInternalServerError)
        http.StatusInternalServerError
        (raven.Capture (sentryPacket v r) (debug.PrintStack s2))) := by
  unfold sentryEntry at hpanic
  simp [sentryMiddleware, hpanic, sentryPacket]

theorem sentryMiddleware_of_returned (next : Handler) (r : Request) (s : World)
    (s2 : World) (hret : next r (sentryEntry r s) = .returned s2) :
    sentryMiddleware next r s = .returned s2 := by
  unfold sentryEntry at hret
  simp [sentryMiddleware, hret]

theorem NewGorelic_empty (appname : String) (verbose : Bool) (p : Process) :
    NewGorelic "" appname verbose p =
      .panicked (.string "Please specify NewRelic license") p := by
  simp [NewGorelic]

theorem NewGorelic_nonempty (license appname : String) (verbose : Bool) (p : Process)
    (h : license ≠ "") :
    NewGorelic license appname verbose p =
      .ok (startedAgent license appname verbose p.timersCreated)
        { p with
          agentsCreated := p.agentsCreated + 1,
          timersCreated := p.timersCreated + 1,
          running := p.running ++ [startedAgent license appname verbose p.timersCreated] } := by
  simp [NewGorelic, h, gorelic.NewAgent, metrics.NewTimer, gorelic.Agent.Run, startedAgent]

theorem createNewrelicMiddleware_empty (p : Process)
    (h : os.Getenv "NEWRELIC_LICENSE_KEY" p = "") :
    createNewrelicMiddleware p =
      .panicked (.string "Please specify NewRelic license")
        (startup.log.Printf "%s" [.str ""] p) := by
  simp [createNewrelicMiddleware, h, NewGorelic_empty]

theorem createNewrelicMiddleware_nonempty (p : Process)
    (h : os.Getenv "NEWRELIC_LICENSE_KEY" p ≠ "") :
    createNewrelicMiddleware p =
      .ok (newrelicMid (startedAgent (os.Getenv "NEWRELIC_LICENSE_KEY" p) "Golang Test" true
          p.timersCreated))
        { p with
          stderr := p.stderr ++ [.logged "%s" [.str (os.Getenv "NEWRELIC_LICENSE_KEY" p)]],
          agentsCreated := p.agentsCreated + 1,
          timersCreated := p.timersCreated + 1,
          running := p.running ++ [startedAgent (os.Getenv "NEWRELIC_LICENSE_KEY" p)
            "Golang Test" true p.timersCreated] } := by
  simp only [createNewrelicMiddleware]
  rw [NewGorelic_nonempty _ _ _ _ h]
  rfl

theorem newrelicMid_of_returned (agent : Agent) (timer : Nat)
    (htimer : agent.HTTPTimer = some timer) (next : Handler) (r : Request) (s s2 : World)
    (hret : next r (time.Now s).2 = .returned s2) :
    newrelicMid agent next r s = .returned (metrics.Timer.UpdateSince timer s.now s2) := by
  simp only [time.Now] at hret
  simp [newrelicMid, time.Now, hret, htimer]

theorem newrelicMid_of_panicked (agent : Agent) (next : Handler) (r : Request) (s : World)
    (v : Value) (s2 : World) (hpanic : next r (time.Now s).2 = .panicked v s2) :
    newrelicMid agent next r s = .panicked v s2 := by
  simp only [time.Now] at hpanic
  simp [newrelicMid, time.Now, hpanic]

theorem loggingMiddleware_of_returned (next : Handler) (r : Request) (s s2 : World)
    (hret : next r (time.Now s).2 = .returned s2) :
    loggingMiddleware next r s = .returned
      (log.Printf "[%s] %q %v\n"
        [.str r.Method, .str r.URL, .duration (Time.Sub (time.Now s2).1 (time.Now s).1)]
        (time.Now s2).2) := by
  simp only [time.Now] at hret
  simp [loggingMiddleware, time.Now, hret]

theorem loggingMiddleware_of_panicked (next : Handler) (r : Request) (s : World)
    (v : Value) (s2 : World) (hpanic : next r (time.Now s).2 = .panicked v s2) :
    loggingMiddleware next r s = .panicked v s2 := by
  simp only [time.Now] at hpanic
  simp [loggingMiddleware, time.Now, hpanic]

theorem wrapped_panics (inner : List (Handler → Handler)) (terminal : Handler) (r : Request)
    (hinner : ∀ mw ∈ inner, mw = loggingMiddleware ∨ ∃ agent, mw = newrelicMid agent)
    (hterminal : ∀ s, (terminal r s).panicValue ≠ none) :
    ∀ s, (wrapped inner terminal r s).panicValue ≠ none := by
  induction inner with
  | nil => exact hterminal
  | cons mw rest ih =>
    intro s
    have hrest := ih (fun m hm => hinner m (List.mem_cons_of_mem _ hm)) (time.Now s).2
    cases hres : wrapped rest terminal r (time.Now s).2 with
    | returned s2 => simp [hres, Outcome.panicValue] at hrest
    | panicked v s2 =>
      rcases hinner mw (List.mem_cons_self _ _) with hmw | ⟨agent, hmw⟩
      · subst hmw
        have := loggingMiddleware_of_panicked (wrapped rest terminal) r s v s2 hres
        simp [wrapped] at this ⊢
        simp [this, Outcome.panicValue]
      · subst hmw
        have := newrelicMid_of_panicked agent (wrapped rest terminal) r s v s2 hres
        simp [wrapped] at this ⊢
        simp [this, Outcome.panicValue]

theorem main_of_empty_license {Ctx : Type} (x : XHandler Ctx) (p : Process)
    (h : os.Getenv "NEWRELIC_LICENSE_KEY" p = "") :
    main x p = .panicked (.string "Please specify NewRelic license")
      (startup.log.Printf "%s" [.str ""] p) := by
  simp [main, createNewrelicMiddleware_empty p h]

theorem main_of_license {Ctx : Type} (x : XHandler Ctx) (p : Process)
    (h : os.Getenv "NEWRELIC_LICENSE_KEY" p ≠ "") :
    main x p =
      match p.bindError ":8080" with
      | some err => .fatal (startup.log.Fatal err (registered x p))
      | none => .serving { registered x p with listening := some ":8080" } := by
  simp only [main, createNewrelicMiddleware_nonempty p h]
  cases hb : p.bindError ":8080" with
  | none =>
    simp [http.ListenAndServe, bone.Mux.Get, bone.New, hb, registered, composed,
      Chain.HandlerF, Chain.HandlerFC, Chain.HandlerC, Chain.Use, Chain.UseC]
  | some err =>
    simp [http.ListenAndServe, bone.Mux.Get, bone.New, hb, registered, composed,
      Chain.HandlerF, Chain.HandlerFC, Chain.HandlerC, Chain.Use, Chain.UseC]

theorem specChain_completed (h : HandlerC Context) (r : Request) (s s4 : World)
    (hret : h (chainContext s) r (chainEntry r s) = .returned s4)
    (hlt : s4.now < s.now + 2 * time.Second) :
    specXHandler.CloseHandler (specXHandler.TimeoutHandler (2 * time.Second) h)
      specXHandler.Background r (chainEntry r s) = .returned s4 := by
  have hctx : ({ ({ context.Background with closeNotify := true } : Context) with
      deadline := some ((chainEntry r s).now + 2 * time.Second) } : Context)
      = chainContext s := rfl
  simp only [specXHandler, xhandler.CloseHandler, xhandler.TimeoutHandler]
  rw [hctx, hret]
  have hnow : (chainEntry r s).now = s.now := rfl
  simp [Outcome.world, hnow, hlt]

theorem specChain_timedOut (h : HandlerC Context) (r : Request) (s : World)
    (hge : s.now + 2 * time.Second ≤ (h (chainContext s) r (chainEntry r s)).world.now) :
    specXHandler.CloseHandler (specXHandler.TimeoutHandler (2 * time.Second) h)
      specXHandler.Background r (chainEntry r s) = .returned
        (http.Error (http.StatusText http.StatusServiceUnavailable)
          http.StatusServiceUnavailable
          { chainEntry r s with now := s.now + 2 * time.Second }) := by
  have hctx : ({ ({ context.Background with closeNotify := true } : Context) with
      deadline := some ((chainEntry r s).now + 2 * time.Second) } : Context)
      = chainContext s := rfl
  simp only [specXHandler, xhandler.CloseHandler, xhandler.TimeoutHandler]
  rw [hctx]
  have hnow : (chainEntry r s).now = s.now := rfl
  rw [hnow]
  simp [not_lt.mpr hge]

theorem composed_of_returned {Ctx : Type} (x : XHandler Ctx) (agent : Agent) (timer : Nat)
    (htimer : agent.HTTPTimer = some timer) (h : HandlerC Ctx) (r : Request) (s s4 : World)
    (hret : x.CloseHandler (x.TimeoutHandler (2 * time.Second) h) x.Background r
      (chainEntry r s) = .returned s4) :
    composed x (newrelicMid agent) h r s = .returned
      (metrics.Timer.UpdateSince timer s.now
        (log.Printf "[%s] %q %v\n"
          [.str r.Method, .str r.URL, .duration (s4.now - s.now)] (time.Now s4).2)) := by
  have hlog := loggingMiddleware_of_returned
    (x.CloseHandler (x.TimeoutHandler (2 * time.Second) h) x.Background) r
    (time.Now (sentryEntry r s)).2 s4 hret
  have hmid := newrelicMid_of_returned agent timer htimer _ r (sentryEntry r s) _ hlog
  exact sentryMiddleware_of_returned _ r s _ hmid

/-! ## Properties of the middleware and of startup -/

/-- C1 (as amended): when the downstream handler panics before anything was written to
the response, the client receives status 500 and the body "Internal Server Error"
followed by a newline, whatever the panic value; that body holds the rendered panic
message only if the message occurs in this fixed text. -/
theorem sentryMiddleware_panic_response (next : Handler) (r : Request) (s : World)
    (v : Value) (s2 : World)
    (hpanic : next r (sentryEntry r s) = .panicked v s2)
    (hhead : s2.w.wroteHeader = false) (hbody : s2.w.body = "") :
    (sentryMiddleware next r s).panicValue = none ∧
    (clientReceives (sentryMiddleware next) r s).status = 500 ∧
    (clientReceives (sentryMiddleware next) r s).body = "Internal Server Error\n" ∧
    (strings.Contains "Internal Server Error\n" (fmt.Sprint v) = false →
      strings.Contains (clientReceives (sentryMiddleware next) r s).body (fmt.Sprint v)
        = false) := by
  have hrun := sentryMiddleware_of_panicked next r s v s2 hpanic
  have hw : (raven.Capture (sentryPacket v r) (debug.PrintStack s2)).w.wroteHeader = false := by
    simpa [raven.Capture, debug.PrintStack] using hhead
  have hb : (raven.Capture (sentryPacket v r) (debug.PrintStack s2)).w.body = "" := by
    simpa [raven.Capture, debug.PrintStack] using hbody
  obtain ⟨h1, h2⟩ := http_Error_fresh (http.StatusText http.StatusInternalServerError)
    http.StatusInternalServerError _ hw
  have hstatus : (clientReceives (sentryMiddleware next) r s).status = 500 := by
    unfold clientReceives
    rw [hrun]
    exact h1
  have hbody2 : (clientReceives (sentryMiddleware next) r s).body
      = "Internal Server Error\n" := by
    unfold clientReceives
    rw [hrun]
    show (http.Error _ _ _).w.clientResponse.body = _
    rw [h2, hb]
    decide
  refine ⟨by simp [hrun, Outcome.panicValue], hstatus, hbody2, ?_⟩
  intro h
  rw [hbody2]
  exact h

/-- C1, at `GET /panic`: `panicHandler` panics with nothing written, and the client gets
500 with the generic text, which does not hold the panic message. -/
theorem sentryMiddleware_panic_response_witness :
    panicHandler getPanic (sentryEntry getPanic (World.fresh 0))
      = .panicked (errors.New "error for sentry: from panicHandler")
          (sentryEntry getPanic (World.fresh 0)) ∧
    (clientReceives (sentryMiddleware panicHandler) getPanic (World.fresh 0)).status = 500 ∧
    (clientReceives (sentryMiddleware panicHandler) getPanic (World.fresh 0)).body
      = "Internal Server Error\n" ∧
    strings.Contains (clientReceives (sentryMiddleware panicHandler) getPanic (World.fresh 0)).body
      "error for sentry: from panicHandler" = false :=
  have h := sentryMiddleware_panic_response panicHandler getPanic (World.fresh 0)
    (errors.New "error for sentry: from panicHandler") (sentryEntry getPanic (World.fresh 0))
    rfl rfl rfl
  ⟨rfl, h.2.1, h.2.2.1, h.2.2.2 (by decide)⟩

/-- C1, as stated, fails: a handler that has written to the response before it panics
(here it writes its error text) leaves the client with status 200, not 500, and with a
body that holds the panic message. -/
theorem sentryMiddleware_panic_after_write :
    leakingPanicHandler getPanic (sentryEntry getPanic (World.fresh 0)) =
      .panicked (errors.New "error for sentry: from panicHandler")
        (fmt.Fprintf "error for sentry: from panicHandler"
          (sentryEntry getPanic (World.fresh 0))) ∧
    (clientReceives (sentryMiddleware leakingPanicHandler) getPanic (World.fresh 0)).status
      = 200 ∧
    (clientReceives (sentryMiddleware leakingPanicHandler) getPanic (World.fresh 0)).body
      = "error for sentry: from panicHandlerInternal Server Error\n" ∧
    strings.Contains
      (clientReceives (sentryMiddleware leakingPanicHandler) getPanic (World.fresh 0)).body
      (fmt.Sprint (errors.New "error for sentry: from panicHandler")) = true :=
  ⟨rfl, by decide, by decide, by decide⟩

/-- C2: whenever the downstream handler panics, `sentryMiddleware(next)` returns
normally.  After the panic it makes exactly the calls `debug.PrintStack`, one
`raven.Capture` and one `http.Error`: one more packet is captured, and the client's
response gets exactly one error write, the body downstream left followed once by
"Internal Server Error" and a newline, with the status line sent, as 500 unless
downstream had already sent one.  This covers a terminal handler that panics wrapped in
any number of logging and timing middleware, which pass the panic on. -/
theorem sentryMiddleware_recovers_once :
    (∀ (next : Handler) (r : Request) (s : World) (v : Value) (s2 : World),
      next r (sentryEntry r s) = .panicked v s2 →
      ∃ s5, sentryMiddleware next r s = .returned s5 ∧
        s5.captured = s2.captured ++ [sentryPacket v r] ∧
        s5.calls = s2.calls ++ [.debugPrintStack, .ravenCapture (sentryPacket v r),
          .httpError "Internal Server Error" 500] ∧
        s5.w.body = s2.w.body ++ "Internal Server Error\n" ∧
        s5.w.wroteHeader = true ∧
        s5.w.status = (if s2.w.wroteHeader then s2.w.status else 500) ∧
        (s2.w.wroteHeader = false →
          s5.w.clientResponse.status = 500 ∧
          s5.w.clientResponse.body = s2.w.body ++ "Internal Server Error\n")) ∧
    (∀ (inner : List (Handler → Handler)) (terminal : Handler) (r : Request),
      (∀ mw ∈ inner, mw = loggingMiddleware ∨ ∃ agent, mw = newrelicMid agent) →
      (∀ s, (terminal r s).panicValue ≠ none) →
      ∀ s, ∃ v s2 s5, wrapped inner terminal r (sentryEntry r s) = .panicked v s2 ∧
        sentryMiddleware (wrapped inner terminal) r s = .returned s5 ∧
        s5.captured = s2.captured ++ [sentryPacket v r] ∧
        s5.calls = s2.calls ++ [.debugPrintStack, .ravenCapture (sentryPacket v r),
          .httpError "Internal Server Error" 500] ∧
        s5.w.body = s2.w.body ++ "Internal Server Error\n" ∧
        s5.w.wroteHeader = true ∧
        s5.w.status = (if s2.w.wroteHeader then s2.w.status else 500)) := by
  have general : ∀ (next : Handler) (r : Request) (s : World) (v : Value) (s2 : World),
      next r (sentryEntry r s) = .panicked v s2 →
      ∃ s5, sentryMiddleware next r s = .returned s5 ∧
        s5.captured = s2.captured ++ [sentryPacket v r] ∧
        s5.calls = s2.calls ++ [.debugPrintStack, .ravenCapture (sentryPacket v r),
          .httpError "Internal Server Error" 500] ∧
        s5.w.body = s2.w.body ++ "Internal Server Error\n" ∧
        s5.w.wroteHeader = true ∧
        s5.w.status = (if s2.w.wroteHeader then s2.w.status else 500) ∧
        (s2.w.wroteHeader = false →
          s5.w.clientResponse.status = 500 ∧
          s5.w.clientResponse.body = s2.w.body ++ "Internal Server Error\n") := by
    intro next r s v s2 hpanic
    have htext : http.StatusText http.StatusInternalServerError ++ "\n"
        = "Internal Server Error\n" := by decide
    have hb : (http.Error (http.StatusText http.StatusInternalServerError)
        http.StatusInternalServerError
        (raven.Capture (sentryPacket v r) (debug.PrintStack s2))).w.body
        = s2.w.body ++ "Internal Server Error\n" := by
      rw [← htext]
      cases hw : s2.w.wroteHeader <;>
        simp [http.Error, ResponseWriter.Write, ResponseWriter.WriteHeader,
          ResponseWriter.headerSet, raven.Capture, debug.PrintStack, hw]
    have hh : (http.Error (http.StatusText http.StatusInternalServerError)
        http.StatusInternalServerError
        (raven.Capture (sentryPacket v r) (debug.PrintStack s2))).w.wroteHeader = true := by
      cases hw : s2.w.wroteHeader <;>
        simp [http.Error, ResponseWriter.Write, ResponseWriter.WriteHeader,
          ResponseWriter.headerSet, raven.Capture, debug.PrintStack, hw]
    have hs : (http.Error (http.StatusText http.StatusInternalServerError)
        http.StatusInternalServerError
        (raven.Capture (sentryPacket v r) (debug.PrintStack s2))).w.status
        = (if s2.w.wroteHeader then s2.w.status else 500) := by
      cases hw : s2.w.wroteHeader <;>
        simp [http.Error, ResponseWriter.Write, ResponseWriter.WriteHeader,
          ResponseWriter.headerSet, raven.Capture, debug.PrintStack, hw,
          http.StatusInternalServerError]
    refine ⟨_, sentryMiddleware_of_panicked next r s v s2 hpanic, ?_, ?_, hb, hh, hs, ?_⟩
    · simp [http.Error, raven.Capture, debug.PrintStack]
    · simp [http.Error, raven.Capture, debug.PrintStack, http.StatusText,
        http.StatusInternalServerError]
    · intro hfresh
      simp only [ResponseWriter.clientResponse, hh, if_true]
      rw [hs, hb, hfresh]
      exact ⟨rfl, rfl⟩
  refine ⟨general, ?_⟩
  intro inner terminal r hinner hterminal s
  have hp := wrapped_panics inner terminal r hinner hterminal (sentryEntry r s)
  cases hres : wrapped inner terminal r (sentryEntry r s) with
  | returned s2 => simp [hres, Outcome.panicValue] at hp
  | panicked v s2 =>
    obtain ⟨s5, h1, h2, h3, h4, h5, h6, _⟩ := general (wrapped inner terminal) r s v s2 hres
    exact ⟨v, s2, s5, rfl, h1, h2, h3, h4, h5, h6⟩

/-- C2, at `GET /panic` with the timing and the logging middleware between
`sentryMiddleware` and `panicHandler`: the two inner middleware do not recover,
`panicHandler` panics in every world, and the request returns with one capture, one
`http.Error` call, and the client receiving 500 with the error text written once. -/
theorem sentryMiddleware_recovers_once_witness :
    (∀ mw ∈ [newrelicMid (startedAgent "license" "Golang Test" true 0), loggingMiddleware],
      mw = loggingMiddleware ∨ ∃ agent, mw = newrelicMid agent) ∧
    (∀ s, (panicHandler getPanic s).panicValue ≠ none) ∧
    ∃ s5, sentryMiddleware
        (wrapped [newrelicMid (startedAgent "license" "Golang Test" true 0), loggingMiddleware]
          panicHandler) getPanic (World.fresh 0) = .returned s5 ∧
      s5.captured = [sentryPacket (errors.New "error for sentry: from panicHandler") getPanic] ∧
      s5.calls.count (.ravenCapture
        (sentryPacket (errors.New "error for sentry: from panicHandler") getPanic)) = 1 ∧
      s5.calls.count (.httpError "Internal Server Error" 500) = 1 ∧
      s5.w.body = "Internal Server Error\n" ∧
      s5.w.wroteHeader = true ∧
      s5.w.status = 500 := by
  have hinner : ∀ mw ∈ [newrelicMid (startedAgent "license" "Golang Test" true 0),
      loggingMiddleware], mw = loggingMiddleware ∨ ∃ agent, mw = newrelicMid agent := by
    intro mw hmw
    simp only [List.mem_cons, List.mem_singleton, List.not_mem_nil, or_false] at hmw
    rcases hmw with h | h
    · exact Or.inr ⟨_, h⟩
    · exact Or.inl h
  have hterminal : ∀ s, (panicHandler getPanic s).panicValue ≠ none := by
    intro s
    simp [panicHandler, Outcome.panicValue]
  obtain ⟨v, s2, s5, e1, e2, e3, e4, e5, e6, e7⟩ := sentryMiddleware_recovers_once.2 _
    panicHandler getPanic hinner hterminal (World.fresh 0)
  have e1r : wrapped [newrelicMid (startedAgent "license" "Golang Test" true 0),
      loggingMiddleware] panicHandler getPanic (sentryEntry getPanic (World.fresh 0))
      = .panicked (errors.New "error for sentry: from panicHandler")
          (time.Now (time.Now (sentryEntry getPanic (World.fresh 0))).2).2 := rfl
  rw [e1r] at e1
  injection e1 with hv hs
  subst hv
  subst hs
  refine ⟨hinner, hterminal, s5, e2, ?_, ?_, ?_, ?_, e6, ?_⟩
  · rw [e3]; rfl
  · rw [e4]; decide
  · rw [e4]; decide
  · rw [e5]; decide
  · rw [e7]; rfl

/-- C7 (as amended): when the downstream handler returns normally, `sentryMiddleware(next)`
ends in exactly the world downstream left, so it captures nothing and writes nothing;
its one effect of its own is the `raven.SetHttpContext` call before downstream runs,
which replaces the HTTP context of raven's default client by the request's. -/
theorem sentryMiddleware_normal_effects (next : Handler) (r : Request) (s s2 : World)
    (hret : next r (sentryEntry r s) = .returned s2) :
    sentryMiddleware next r s = .returned s2 ∧
    (sentryEntry r s).ravenHttp = some (raven.NewHttp r) ∧
    (sentryEntry r s).calls = s.calls ++ [.ravenSetHttpContext (raven.NewHttp r)] ∧
    (sentryEntry r s).captured = s.captured ∧
    (sentryEntry r s).w = s.w ∧
    (sentryEntry r s).now = s.now ∧
    (sentryEntry r s).stderr = s.stderr ∧
    (sentryEntry r s).timers = s.timers :=
  ⟨sentryMiddleware_of_returned next r s s2 hret, rfl, rfl, rfl, rfl, rfl, rfl, rfl⟩

/-- C7, at `GET /normal`: nothing is captured, and raven's HTTP context is now the
request's. -/
theorem sentryMiddleware_normal_effects_witness :
    sentryMiddleware normalHandler getNormal (World.fresh 0)
      = .returned (fmt.Fprintf "normal" (sentryEntry getNormal (World.fresh 0))) ∧
    (sentryMiddleware normalHandler getNormal (World.fresh 0)).world.captured = [] ∧
    (sentryMiddleware normalHandler getNormal (World.fresh 0)).world.ravenHttp
      = some { Method := "GET", URL := "/normal", Headers := [] } :=
  have h := sentryMiddleware_normal_effects normalHandler getNormal (World.fresh 0)
    (fmt.Fprintf "normal" (sentryEntry getNormal (World.fresh 0))) rfl
  ⟨h.1, by rw [h.1]; rfl, by rw [h.1]; rfl⟩

/-- C7, as stated, fails: `normalHandler` returns normally and leaves raven's HTTP context
alone, yet after `sentryMiddleware(normalHandler)` that process-wide context has changed
from unset to the request's. -/
theorem sentryMiddleware_sets_raven_context :
    (normalHandler getNormal (World.fresh 0)).panicValue = none ∧
    (World.fresh 0).ravenHttp = none ∧
    (normalHandler getNormal (World.fresh 0)).world.ravenHttp = none ∧
    (sentryMiddleware normalHandler getNormal (World.fresh 0)).world.ravenHttp
      = some { Method := "GET", URL := "/normal", Headers := [] } :=
  ⟨rfl, rfl, rfl, rfl⟩

/-- C4: around a downstream handler that returns normally, the timing middleware (of an
agent that has its timer), the logging middleware and the panic-capture middleware each
return normally with the response writer exactly as downstream left it, so the client
receives the status, headers and body downstream wrote. -/
theorem middleware_pass_through (agent : Agent) (timer : Nat)
    (htimer : agent.HTTPTimer = some timer) (next : Handler) (r : Request) (s : World) :
    (∀ s2, next r (time.Now s).2 = .returned s2 →
      ∃ s3, newrelicMid agent next r s = .returned s3 ∧ s3.w = s2.w ∧
        clientReceives (newrelicMid agent next) r s = s2.w.clientResponse) ∧
    (∀ s2, next r (time.Now s).2 = .returned s2 →
      ∃ s3, loggingMiddleware next r s = .returned s3 ∧ s3.w = s2.w ∧
        clientReceives (loggingMiddleware next) r s = s2.w.clientResponse) ∧
    (∀ s2, next r (sentryEntry r s) = .returned s2 →
      ∃ s3, sentryMiddleware next r s = .returned s3 ∧ s3.w = s2.w ∧
        clientReceives (sentryMiddleware next) r s = s2.w.clientResponse) := by
  refine ⟨?_, ?_, ?_⟩
  · intro s2 h
    have hrun := newrelicMid_of_returned agent timer htimer next r s s2 h
    exact ⟨_, hrun, rfl, by rw [clientReceives, hrun]; rfl⟩
  · intro s2 h
    have hrun := loggingMiddleware_of_returned next r s s2 h
    exact ⟨_, hrun, rfl, by rw [clientReceives, hrun]; rfl⟩
  · intro s2 h
    have hrun := sentryMiddleware_of_returned next r s s2 h
    exact ⟨_, hrun, rfl, by rw [clientReceives, hrun]; rfl⟩

/-- C4, at `GET /normal`: behind each of the three middleware, and behind all three
nested as in `main`, the client receives status 200 and the body `normal`. -/
theorem middleware_pass_through_witness :
    clientReceives (newrelicMid (startedAgent "license" "Golang Test" true 0) normalHandler)
      getNormal (World.fresh 0) = { status := 200, header := [], body := "normal" } ∧
    clientReceives (loggingMiddleware normalHandler) getNormal (World.fresh 0)
      = { status := 200, header := [], body := "normal" } ∧
    clientReceives (sentryMiddleware normalHandler) getNormal (World.fresh 0)
      = { status := 200, header := [], body := "normal" } ∧
    clientReceives (sentryMiddleware (newrelicMid (startedAgent "license" "Golang Test" true 0)
      (loggingMiddleware normalHandler))) getNormal (World.fresh 0)
      = { status := 200, header := [], body := "normal" } := by
  have h := middleware_pass_through (startedAgent "license" "Golang Test" true 0) 0 rfl
    normalHandler getNormal (World.fresh 0)
  obtain ⟨_, _, _, h1⟩ := h.1 _ rfl
  obtain ⟨_, _, _, h2⟩ := h.2.1 _ rfl
  obtain ⟨_, _, _, h3⟩ := h.2.2 _ rfl
  refine ⟨?_, ?_, ?_, by decide⟩
  · rw [h1]; decide
  · rw [h2]; decide
  · rw [h3]; decide

/-- C5: the middleware `createNewrelicMiddleware` returns is the timing closure of an agent
whose timer is the one `NewGorelic` created.  It reads the clock and then invokes
downstream in the world that read leaves.  If downstream returns, the middleware returns
after exactly one `UpdateSince(start)` on that timer, made on the world downstream left:
one sample is appended, equal to the clock at that moment minus the start, which is at
least the time downstream took.  If downstream panics, the same panic leaves the
middleware with the world untouched, so no sample is recorded. -/
theorem createNewrelicMiddleware_timing (p p1 : Process) (mid : Handler → Handler)
    (hmid : createNewrelicMiddleware p = .ok mid p1)
    (next : Handler) (r : Request) (s : World) :
    (time.Now s).1 = s.now ∧
    (time.Now s).2.calls = s.calls ++ [.timeNow s.now] ∧
    (∀ s2, next r (time.Now s).2 = .returned s2 →
      mid next r s = .returned (metrics.Timer.UpdateSince p.timersCreated s.now s2) ∧
      (mid next r s).world.timers p.timersCreated
        = s2.timers p.timersCreated ++ [s2.now - s.now] ∧
      (mid next r s).world.calls = s2.calls ++ [.timerUpdateSince p.timersCreated s.now] ∧
      s2.now - (time.Now s).2.now ≤ s2.now - s.now) ∧
    (∀ v s2, next r (time.Now s).2 = .panicked v s2 →
      mid next r s = .panicked v s2) := by
  by_cases hl : os.Getenv "NEWRELIC_LICENSE_KEY" p = ""
  · rw [createNewrelicMiddleware_empty p hl] at hmid
    cases hmid
  · rw [createNewrelicMiddleware_nonempty p hl] at hmid
    injection hmid with hm _
    subst hm
    refine ⟨rfl, rfl, ?_, ?_⟩
    · intro s2 h
      have hrun := newrelicMid_of_returned
        (startedAgent (os.Getenv "NEWRELIC_LICENSE_KEY" p) "Golang Test" true p.timersCreated)
        p.timersCreated rfl next r s s2 h
      refine ⟨hrun, ?_, ?_, ?_⟩
      · rw [hrun]
        simp [Outcome.world, metrics.Timer.UpdateSince, Time.Sub]
      · rw [hrun]
        rfl
      · exact le_of_eq rfl
    · intro v s2 h
      exact newrelicMid_of_panicked _ next r s v s2 h

/-- C5, run: with a license set, a downstream handler that sleeps 3 seconds from time 10
yields the single sample 3 seconds on timer 0; behind `panicHandler` the timer stays
empty and the panic comes through. -/
theorem createNewrelicMiddleware_timing_witness :
    createNewrelicMiddleware (Process.fresh (licenseOnlyEnv "license"))
      = .ok (newrelicMid (startedAgent "license" "Golang Test" true 0))
          { Process.fresh (licenseOnlyEnv "license") with
            stderr := [.logged "%s" [.str "license"]], agentsCreated := 1,
            timersCreated := 1,
            running := [startedAgent "license" "Golang Test" true 0] } ∧
    (newrelicMid (startedAgent "license" "Golang Test" true 0)
        (sleepingHandler (3 * time.Second)) getNormal (World.fresh 10)).world.timers 0
      = [3000000000] ∧
    (newrelicMid (startedAgent "license" "Golang Test" true 0)
        (sleepingHandler (3 * time.Second)) getNormal (World.fresh 10)).panicValue = none ∧
    newrelicMid (startedAgent "license" "Golang Test" true 0) panicHandler getPanic
        (World.fresh 10)
      = .panicked (errors.New "error for sentry: from panicHandler")
          (time.Now (World.fresh 10)).2 := by
  have hmid : createNewrelicMiddleware (Process.fresh (licenseOnlyEnv "license"))
      = .ok (newrelicMid (startedAgent "license" "Golang Test" true 0))
          { Process.fresh (licenseOnlyEnv "license") with
            stderr := [.logged "%s" [.str "license"]], agentsCreated := 1,
            timersCreated := 1,
            running := [startedAgent "license" "Golang Test" true 0] } :=
    createNewrelicMiddleware_nonempty (Process.fresh (licenseOnlyEnv "license")) (by decide)
  have h1 := (createNewrelicMiddleware_timing _ _ _ hmid
    (sleepingHandler (3 * time.Second)) getNormal (World.fresh 10)).2.2.1 _ rfl
  have h2 := (createNewrelicMiddleware_timing _ _ _ hmid
    panicHandler getPanic (World.fresh 10)).2.2.2 _ _ rfl
  refine ⟨hmid, ?_, ?_, h2⟩
  · exact h1.2.1.trans (by decide)
  · rw [h1.1]; rfl

/-- C6 (as amended): if the downstream handler returns normally, `loggingMiddleware(next)`
returns after appending exactly one log line to what downstream left on standard error;
the line carries the request's method, its URL and the duration (time read after
downstream) minus (time read before downstream).  If downstream panics, the same panic
leaves the middleware with the world untouched: no line is logged. -/
theorem loggingMiddleware_logs_on_return (next : Handler) (r : Request) (s : World) :
    (∀ s2, next r (time.Now s).2 = .returned s2 →
      loggingMiddleware next r s = .returned
        (log.Printf "[%s] %q %v\n"
          [.str r.Method, .str r.URL, .duration (Time.Sub (time.Now s2).1 (time.Now s).1)]
          (time.Now s2).2) ∧
      (loggingMiddleware next r s).world.stderr = s2.stderr ++
        [.logged "[%s] %q %v\n"
          [.str r.Method, .str r.URL, .duration ((time.Now s2).1 - (time.Now s).1)]]) ∧
    (∀ v s2, next r (time.Now s).2 = .panicked v s2 →
      loggingMiddleware next r s = .panicked v s2) := by
  refine ⟨?_, ?_⟩
  · intro s2 h
    have hrun := loggingMiddleware_of_returned next r s s2 h
    refine ⟨hrun, ?_⟩
    rw [hrun]
    rfl
  · intro v s2 h
    exact loggingMiddleware_of_panicked next r s v s2 h

/-- C6, run: a request for `/normal` arriving at time 10 whose handler sleeps 3 seconds
leaves the one line with `GET`, `/normal` and 3 seconds. -/
theorem loggingMiddleware_logs_on_return_witness :
    (loggingMiddleware (sleepingHandler (3 * time.Second)) getNormal (World.fresh 10)).panicValue
      = none ∧
    (loggingMiddleware (sleepingHandler (3 * time.Second)) getNormal (World.fresh 10)).world.stderr
      = [.logged "[%s] %q %v\n" [.str "GET", .str "/normal", .duration 3000000000]] := by
  have h := (loggingMiddleware_logs_on_return (sleepingHandler (3 * time.Second)) getNormal
    (World.fresh 10)).1 _ rfl
  exact ⟨by rw [h.1]; rfl, h.2.trans (by decide)⟩

/-- C6, as stated, fails: `GET /panic` served through `loggingMiddleware(panicHandler)`
ends in a panic with no log line at all, and through the three middleware nested as in
`main` standard error holds the stack dump only. -/
theorem loggingMiddleware_no_line_on_panic :
    loggingMiddleware panicHandler getPanic (World.fresh 10)
      = .panicked (errors.New "error for sentry: from panicHandler")
          (time.Now (World.fresh 10)).2 ∧
    (loggingMiddleware panicHandler getPanic (World.fresh 10)).world.stderr = [] ∧
    (sentryMiddleware (newrelicMid (startedAgent "license" "Golang Test" true 0)
      (loggingMiddleware panicHandler)) getPanic (World.fresh 10)).world.stderr = [.stack] :=
  ⟨rfl, rfl, rfl⟩

/-- C8: `NewGorelic` panics exactly when the license is empty, and then leaves the process
as it found it (no agent created, none run).  So when `NEWRELIC_LICENSE_KEY` is unset
or empty, `createNewrelicMiddleware` panics and `main` ends with that panic having only
logged the empty license: no mux, no route, no listener, not serving. -/
theorem NewGorelic_panics_iff_empty_license {Ctx : Type} (x : XHandler Ctx)
    (license appname : String) (verbose : Bool) (p : Process) :
    ((∃ v p1, NewGorelic license appname verbose p = .panicked v p1) ↔ license = "") ∧
    (license = "" → NewGorelic license appname verbose p
      = .panicked (.string "Please specify NewRelic license") p) ∧
    ((p.env "NEWRELIC_LICENSE_KEY" = none ∨ p.env "NEWRELIC_LICENSE_KEY" = some "") →
      createNewrelicMiddleware p = .panicked (.string "Please specify NewRelic license")
        (startup.log.Printf "%s" [.str ""] p) ∧
      main x p = .panicked (.string "Please specify NewRelic license")
        (startup.log.Printf "%s" [.str ""] p) ∧
      (main x p).process.mux = p.mux ∧
      (main x p).process.listening = p.listening ∧
      (main x p).process.agentsCreated = p.agentsCreated ∧
      (main x p).process.running = p.running ∧
      (main x p).isServing = false) := by
  refine ⟨⟨?_, ?_⟩, ?_, ?_⟩
  · rintro ⟨v, p1, h⟩
    by_contra hl
    rw [NewGorelic_nonempty license appname verbose p hl] at h
    cases h
  · intro hl
    subst hl
    exact ⟨_, _, NewGorelic_empty appname verbose p⟩
  · intro hl
    subst hl
    exact NewGorelic_empty appname verbose p
  · intro henv
    have hget : os.Getenv "NEWRELIC_LICENSE_KEY" p = "" := by
      rcases henv with h | h <;> simp [os.Getenv, h]
    have hmain := main_of_empty_license x p hget
    refine ⟨createNewrelicMiddleware_empty p hget, hmain, ?_, ?_, ?_, ?_, ?_⟩ <;>
      rw [hmain] <;> rfl

/-- C8, run: `NewGorelic` with an empty license panics and with the license `license`
returns; with `NEWRELIC_LICENSE_KEY` unset, and with it set to the empty string, `main`
panics with no mux and no listener. -/
theorem NewGorelic_panics_iff_empty_license_witness :
    NewGorelic "" "Golang Test" true (Process.fresh (fun _ => none))
      = .panicked (.string "Please specify NewRelic license") (Process.fresh (fun _ => none)) ∧
    ¬ (∃ v p1, NewGorelic "license" "Golang Test" true (Process.fresh (fun _ => none))
      = .panicked v p1) ∧
    (main plainXHandler (Process.fresh (fun _ => none))).isServing = false ∧
    (main plainXHandler (Process.fresh (fun _ => none))).process.mux.isNone = true ∧
    (main plainXHandler (Process.fresh (fun _ => none))).process.listening = none ∧
    (main plainXHandler (Process.fresh (licenseOnlyEnv ""))).isServing = false ∧
    (main plainXHandler (Process.fresh (licenseOnlyEnv ""))).process.mux.isNone = true ∧
    (main plainXHandler (Process.fresh (licenseOnlyEnv ""))).process.listening = none := by
  have h0 := NewGorelic_panics_iff_empty_license plainXHandler "" "Golang Test" true
    (Process.fresh (fun _ => none))
  have h1 := NewGorelic_panics_iff_empty_license plainXHandler "license" "Golang Test" true
    (Process.fresh (fun _ => none))
  have h2 := NewGorelic_panics_iff_empty_license plainXHandler "" "Golang Test" true
    (Process.fresh (licenseOnlyEnv ""))
  obtain ⟨_, _, a1, a2, _, _, a3⟩ := h0.2.2 (Or.inl rfl)
  obtain ⟨_, _, b1, b2, _, _, b3⟩ := h2.2.2 (Or.inr rfl)
  refine ⟨h0.2.1 rfl, fun h => absurd (h1.1.1 h) (by decide), a3, ?_, a2, b3, ?_, b2⟩
  · rw [a1]; rfl
  · rw [b1]; rfl

/-- C9 (as amended): startup never looks at a crash-reporter credential.  `main` ends up
serving exactly when `NEWRELIC_LICENSE_KEY` is non-empty and the address `:8080` can be
bound, whatever else the environment holds; it then listens on `:8080` with its four
routes registered. -/
theorem main_serving_iff_license_and_bind {Ctx : Type} (x : XHandler Ctx) (p : Process) :
    ((main x p).isServing = true ↔
      (os.Getenv "NEWRELIC_LICENSE_KEY" p ≠ "" ∧ p.bindError ":8080" = none)) ∧
    ((main x p).isServing = true →
      (main x p).process.listening = some ":8080" ∧
      (main x p).process.patterns = ["/normal", "/panic", "/context/normal", "/context/panic"]) := by
  by_cases hl : os.Getenv "NEWRELIC_LICENSE_KEY" p = ""
  · have hmain := main_of_empty_license x p hl
    simp [hmain, Exit.isServing, hl]
  · have hmain := main_of_license x p hl
    cases hb : p.bindError ":8080" with
    | none =>
      rw [hb] at hmain
      simp [hmain, Exit.isServing, hl, Exit.process, Process.patterns, registered]
    | some err =>
      rw [hb] at hmain
      simp [hmain, Exit.isServing, hl]

/-- C9, run: with only `NEWRELIC_LICENSE_KEY` set `main` serves; with only the crash
reporter's `SENTRY_DSN` set it does not. -/
theorem main_serving_iff_license_and_bind_witness :
    (main plainXHandler (Process.fresh (licenseOnlyEnv "license"))).isServing = true ∧
    (main plainXHandler (Process.fresh (licenseOnlyEnv "license"))).process.listening
      = some ":8080" ∧
    (main plainXHandler (Process.fresh (sentryOnlyEnv "https://key@sentry.example/1"))).isServing
      = false := by
  have h1 := main_serving_iff_license_and_bind plainXHandler
    (Process.fresh (licenseOnlyEnv "license"))
  have h2 := main_serving_iff_license_and_bind plainXHandler
    (Process.fresh (sentryOnlyEnv "https://key@sentry.example/1"))
  have hs : (main plainXHandler (Process.fresh (licenseOnlyEnv "license"))).isServing = true :=
    h1.1.2 ⟨by decide, rfl⟩
  refine ⟨hs, (h1.2 hs).1, ?_⟩
  cases hv : (main plainXHandler
    (Process.fresh (sentryOnlyEnv "https://key@sentry.example/1"))).isServing with
  | false => rfl
  | true => exact absurd (h2.1.1 hv).1 (by decide)

/-- C9, as stated, fails: in a startup whose environment holds `NEWRELIC_LICENSE_KEY` and
nothing else, so no crash-reporter credential (`SENTRY_DSN` is unset), `main` does not
fail: it registers its routes and serves on `:8080`. -/
theorem main_serves_without_sentry_credential :
    (Process.fresh (licenseOnlyEnv "license")).env "SENTRY_DSN" = none ∧
    (main plainXHandler (Process.fresh (licenseOnlyEnv "license"))).isServing = true ∧
    (main plainXHandler (Process.fresh (licenseOnlyEnv "license"))).process.listening
      = some ":8080" ∧
    (main plainXHandler (Process.fresh (licenseOnlyEnv "license"))).process.patterns
      = ["/normal", "/panic", "/context/normal", "/context/panic"] :=
  ⟨by decide, by decide, by decide, by decide⟩

/-- C10: served through the chain `main` builds, with `xhandler` as the specification
describes it and its timeout of 2 seconds.  If the terminal handler returns before the
deadline, the client receives exactly the response the terminal handler left.  If it is
not done by the deadline, the chain returns with the clock at entry plus 2 seconds and
the client receives the timeout response, status 503 and the body "Service Unavailable"
with a newline after what the response held at entry; nothing of the terminal handler's
output is in it. -/
theorem main_chain_timeout (p : Process)
    (hlic : os.Getenv "NEWRELIC_LICENSE_KEY" p ≠ "")
    (h : HandlerC Context) (r : Request) (s : World) :
    (main specXHandler p).process.mux = (registered specXHandler p).mux ∧
    (∀ s4, h (chainContext s) r (chainEntry r s) = .returned s4 →
      s4.now < s.now + 2 * time.Second →
      (composed specXHandler (newrelicMid (startedAgent (os.Getenv "NEWRELIC_LICENSE_KEY" p)
        "Golang Test" true p.timersCreated)) h r s).panicValue = none ∧
      clientReceives (composed specXHandler (newrelicMid (startedAgent
        (os.Getenv "NEWRELIC_LICENSE_KEY" p) "Golang Test" true p.timersCreated)) h) r s
        = s4.w.clientResponse) ∧
    (s.now + 2 * time.Second ≤ (h (chainContext s) r (chainEntry r s)).world.now →
      s.w.wroteHeader = false →
      (composed specXHandler (newrelicMid (startedAgent (os.Getenv "NEWRELIC_LICENSE_KEY" p)
        "Golang Test" true p.timersCreated)) h r s).panicValue = none ∧
      (composed specXHandler (newrelicMid (startedAgent (os.Getenv "NEWRELIC_LICENSE_KEY" p)
        "Golang Test" true p.timersCreated)) h r s).world.now = s.now + 2 * time.Second ∧
      (clientReceives (composed specXHandler (newrelicMid (startedAgent
        (os.Getenv "NEWRELIC_LICENSE_KEY" p) "Golang Test" true p.timersCreated)) h) r s).status
        = 503 ∧
      (clientReceives (composed specXHandler (newrelicMid (startedAgent
        (os.Getenv "NEWRELIC_LICENSE_KEY" p) "Golang Test" true p.timersCreated)) h) r s).body
        = s.w.body ++ "Service Unavailable\n") := by
  refine ⟨?_, ?_, ?_⟩
  · rw [main_of_license specXHandler p hlic]
    cases p.bindError ":8080" <;> rfl
  · intro s4 hret hlt
    have hrun := composed_of_returned specXHandler
      (startedAgent (os.Getenv "NEWRELIC_LICENSE_KEY" p) "Golang Test" true p.timersCreated)
      p.timersCreated rfl h r s s4 (specChain_completed h r s s4 hret hlt)
    exact ⟨by rw [hrun]; rfl, by rw [clientReceives, hrun]; rfl⟩
  · intro hge hfresh
    have hrun := composed_of_returned specXHandler
      (startedAgent (os.Getenv "NEWRELIC_LICENSE_KEY" p) "Golang Test" true p.timersCreated)
      p.timersCreated rfl h r s _ (specChain_timedOut h r s hge)
    have hw : ({ chainEntry r s with now := s.now + 2 * time.Second } : World).w.wroteHeader
        = false := hfresh
    obtain ⟨h1, h2⟩ := http_Error_fresh (http.StatusText http.StatusServiceUnavailable)
      http.StatusServiceUnavailable _ hw
    have htext : http.StatusText http.StatusServiceUnavailable ++ "\n"
        = "Service Unavailable\n" := by decide
    rw [htext] at h2
    refine ⟨by rw [hrun]; rfl, by rw [hrun]; rfl, ?_, ?_⟩
    · rw [clientReceives, hrun]
      exact h1
    · rw [clientReceives, hrun]
      exact h2

/-- C10, run: a terminal handler that blocks for 3 seconds gets the client the timeout
response with the clock 2 seconds after entry; one that blocks for 1 second gets the
client its own response. -/
theorem main_chain_timeout_witness :
    clientReceives (composed specXHandler (newrelicMid (startedAgent "license" "Golang Test"
        true 0)) (fun _ => sleepingHandler (3 * time.Second))) getNormal (World.fresh 10)
      = { status := 503,
          header := [("Content-Type", "text/plain; charset=utf-8"),
            ("X-Content-Type-Options", "nosniff")],
          body := "Service Unavailable\n" } ∧
    (composed specXHandler (newrelicMid (startedAgent "license" "Golang Test" true 0))
        (fun _ => sleepingHandler (3 * time.Second)) getNormal (World.fresh 10)).world.now
      = 2000000010 ∧
    clientReceives (composed specXHandler (newrelicMid (startedAgent "license" "Golang Test"
        true 0)) (fun _ => sleepingHandler (1 * time.Second))) getNormal (World.fresh 10)
      = { status := 200, header := [], body := "normal" } := by
  have h3 := (main_chain_timeout (Process.fresh (licenseOnlyEnv "license")) (by decide)
    (fun _ => sleepingHandler (3 * time.Second)) getNormal (World.fresh 10)).2.2
    (by decide) rfl
  have h1 := (main_chain_timeout (Process.fresh (licenseOnlyEnv "license")) (by decide)
    (fun _ => sleepingHandler (1 * time.Second)) getNormal (World.fresh 10)).2.1 _ rfl
    (by decide)
  refine ⟨by decide, h3.2.1.trans (by decide), h1.2.trans (by decide)⟩

end SampleGolangNewrelic
